import Mathlib

/-!
Shallow embedding of `generate_content` from
`src/Minimalist/Minimalist-Content-Creator.py`.

The function reads the credential `GEMINI_API_KEY` from the environment,
builds a JSON payload from the user query and a fixed system prompt, and
runs a loop `for attempt in range(MAX_RETRIES)`.  Each iteration posts the
request; the outcome of each post is modelled by an oracle
`transport : Nat → AttemptOutcome` giving the network-level result of the
i-th HTTP call.  The embedding records the value returned, the number of
HTTP calls performed and the list of sleep delays, so that the retry and
backoff behaviour is a theorem about the definition.
-/

/-- A JSON value as produced by `response.json()` in Python. -/
inductive JVal where
  | jnull : JVal
  | jbool : Bool → JVal
  | jnum : Int → JVal
  | jstr : String → JVal
  | jarr : List JVal → JVal
  | jobj : List (String × JVal) → JVal

/-- Python exceptions that can arise while extracting
`data.get("candidates", [...])[0].get("content", ...)...` from the decoded
JSON.  `IndexError` and `KeyError` are caught by the handler at line 83 of
the source; `TypeError` and `AttributeError` are not caught by any handler
in `generate_content`. -/
inductive PyExc where
  | indexError : PyExc
  | keyError : PyExc
  | typeError : PyExc
  | attributeError : PyExc
deriving DecidableEq

/-- Python `v.get(key, default)`: on a dict it returns the value bound to
`key` or the default; on anything else `.get` raises `AttributeError`. -/
def jget (v : JVal) (key : String) (default : JVal) : Except PyExc JVal :=
  match v with
  | .jobj fields =>
      match fields.lookup key with
      | some x => .ok x
      | none => .ok default
  | _ => .error .attributeError

/-- Python `v[0]`: first element of a list (raising `IndexError` when
empty), first character of a string (raising `IndexError` when empty),
`KeyError` when `v` is a dict (integer key `0` is absent since JSON object
keys are strings), `TypeError` otherwise. -/
def jindex0 (v : JVal) : Except PyExc JVal :=
  match v with
  | .jarr [] => .error .indexError
  | .jarr (x :: _) => .ok x
  | .jstr s =>
      if s.isEmpty then .error .indexError
      else .ok (.jstr (String.singleton s.front))
  | .jobj _ => .error .keyError
  | _ => .error .typeError

/-- Python truthiness of a JSON value, as used by `if text:`. -/
def jtruthy : JVal → Bool
  | .jnull => false
  | .jbool b => b
  | .jnum n => n != 0
  | .jstr s => !s.isEmpty
  | .jarr xs => !xs.isEmpty
  | .jobj fs => !fs.isEmpty

/-- Lines 62-63 of the source:
`candidate = data.get("candidates", [{}])[0]` and
`text = candidate.get("content", {}).get("parts", [{}])[0].get("text")`.
The final `.get("text")` defaults to Python `None`, modelled as `jnull`. -/
def extract_text (data : JVal) : Except PyExc JVal := do
  let cands ← jget data "candidates" (.jarr [.jobj []])
  let candidate ← jindex0 cands
  let content ← jget candidate "content" (.jobj [])
  let parts ← jget content "parts" (.jarr [.jobj []])
  let part0 ← jindex0 parts
  jget part0 "text" .jnull

/-- Body of an HTTP response: either text that fails to decode as JSON
(`response.json()` raises `json.JSONDecodeError`) or a decoded value.
`raw` is `response.text` in both cases. -/
inductive BodyContent where
  | invalidJson : (raw : String) → BodyContent
  | json : (v : JVal) → (raw : String) → BodyContent

/-- Outcome of one `requests.post` call: either a network-level failure
(`requests.exceptions.RequestException` other than `HTTPError`: connection
refused, timeout, DNS failure) or an HTTP response with a status code and
a body. -/
inductive AttemptOutcome where
  | netError : AttemptOutcome
  | httpResponse : (status : Nat) → (body : BodyContent) → AttemptOutcome

/-- The distinct failure paths of `generate_content`.  The source collapses
every failure to `return None`, but each path is observable through the
message it prints:
* `missingCredential`: lines 32-35, no API key in the environment;
* `httpError s`: line 76 `FATAL HTTP Error` reached with a non-retryable
  status `s`;
* `retryExhausted`: line 76 `FATAL HTTP Error` reached with a retryable
  status on the final attempt (`attempt < MAX_RETRIES - 1` false);
* `networkError`: line 80 `A request error occurred`;
* `malformed raw`: line 84 `Failed to parse API response`, with the raw
  response text attached when non-empty (lines 86-87);
* `exhausted`: the `for` loop completes all iterations without returning
  (every successful response carried falsy extracted text). -/
inductive FailKind where
  | missingCredential : FailKind
  | httpError : Nat → FailKind
  | retryExhausted : FailKind
  | networkError : FailKind
  | malformed : Option String → FailKind
  | exhausted : FailKind

/-- Result of a call: the returned text (`return text`, any truthy value),
a failure path ending in `return None`, or a Python exception escaping the
function (no handler for `TypeError` / `AttributeError`). -/
inductive GenResult where
  | success : JVal → GenResult
  | failure : FailKind → GenResult
  | uncaught : PyExc → GenResult

/-- Observable outcome of one invocation: its result, the number of HTTP
calls issued, and the sleep delays (seconds) performed, in order. -/
structure GenOutcome where
  result : GenResult
  calls : Nat
  sleeps : List Nat

def MAX_RETRIES : Nat := 5
def BASE_DELAY : Nat := 1

/-- Line 70 of the source: `response.status_code in [429, 500, 503]`. -/
def retryableStatus (s : Nat) : Bool :=
  s == 429 || s == 500 || s == 503

/-- `response.raise_for_status()` raises `HTTPError` exactly for
status codes in [400, 600). -/
def raisesForStatus (s : Nat) : Bool :=
  400 ≤ s && s < 600

/-- Whether `response.text` is attached to the parse-failure message:
lines 86-87 print the raw body only when it is non-empty. -/
def rawAttached (raw : String) : Option String :=
  if raw = "" then none else some raw

/-- The loop `for attempt in range(maxRetries)` (lines 53-88), parametrised
by the constants `MAX_RETRIES` and `BASE_DELAY`.  `attempt` is the Python
loop index, `rem` the number of iterations left (`attempt + rem = maxRetries`
at every call), `calls` and `sleeps` the observables accumulated so far. -/
def runAttempts (maxRetries baseDelay : Nat) (transport : Nat → AttemptOutcome) :
    Nat → Nat → Nat → List Nat → GenOutcome
  | _, 0, calls, sleeps => ⟨.failure .exhausted, calls, sleeps⟩
  | attempt, rem + 1, calls, sleeps =>
    match transport attempt with
    | .netError => ⟨.failure .networkError, calls + 1, sleeps⟩
    | .httpResponse status body =>
      if raisesForStatus status then
        if retryableStatus status && decide (attempt < maxRetries - 1) then
          runAttempts maxRetries baseDelay transport (attempt + 1) rem (calls + 1)
            (sleeps ++ [baseDelay * 2 ^ attempt])
        else if retryableStatus status then
          ⟨.failure .retryExhausted, calls + 1, sleeps⟩
        else
          ⟨.failure (.httpError status), calls + 1, sleeps⟩
      else
        match body with
        | .invalidJson raw => ⟨.failure (.malformed (rawAttached raw)), calls + 1, sleeps⟩
        | .json v raw =>
          match extract_text v with
          | .error .indexError => ⟨.failure (.malformed (rawAttached raw)), calls + 1, sleeps⟩
          | .error .keyError => ⟨.failure (.malformed (rawAttached raw)), calls + 1, sleeps⟩
          | .error e => ⟨.uncaught e, calls + 1, sleeps⟩
          | .ok text =>
            if jtruthy text then ⟨.success text, calls + 1, sleeps⟩
            else runAttempts maxRetries baseDelay transport (attempt + 1) rem (calls + 1) sleeps

/-- Line 31-35: `api_key = os.getenv("GEMINI_API_KEY")` followed by
`if not api_key`.  Both an unset variable and an empty string fail the
truthiness test. -/
def credentialTruthy : Option String → Bool
  | none => false
  | some s => !s.isEmpty

/-- Lines 38-43: the request payload built from the user query and the
fixed system prompt. -/
def payload (systemPrompt userQuery : String) : JVal :=
  .jobj
    [("contents", .jarr [.jobj [("parts", .jarr [.jobj [("text", .jstr userQuery)]])]]),
     ("systemInstruction", .jobj [("parts", .jarr [.jobj [("text", .jstr systemPrompt)]])]),
     ("tools", .jarr [.jobj [("google_search", .jobj [])]])]

/-- `generate_content` with the retry constants as parameters: credential
check, then the retry loop starting at `attempt = 0` with all
`maxRetries` iterations remaining and no calls or sleeps recorded. -/
def generate_general (maxRetries baseDelay : Nat) (apiKey : Option String)
    (transport : Nat → AttemptOutcome) : GenOutcome :=
  if credentialTruthy apiKey then
    runAttempts maxRetries baseDelay transport 0 maxRetries 0 []
  else
    ⟨.failure .missingCredential, 0, []⟩

/-- `generate_content(user_query)` (lines 21-91) with its environment and
transport made explicit.  The user query only enters the request payload;
it does not influence the control flow, which is driven by the transport
outcomes. -/
def generate_content (_userQuery : String) (apiKey : Option String)
    (transport : Nat → AttemptOutcome) : GenOutcome :=
  generate_general MAX_RETRIES BASE_DELAY apiKey transport

/-- Two invocations in sequence with their own transports; the source
keeps no state between calls, so each is an independent evaluation. -/
def generate_twice (userQuery : String) (apiKey : Option String)
    (t1 t2 : Nat → AttemptOutcome) : GenOutcome × GenOutcome :=
  (generate_content userQuery apiKey t1, generate_content userQuery apiKey t2)

/-- Discriminators used to state concrete counterexamples. -/
def isSuccess : GenResult → Bool
  | .success _ => true
  | _ => false

def isMalformedFailure : GenResult → Bool
  | .failure (.malformed _) => true
  | _ => false

def isExhaustedFailure : GenResult → Bool
  | .failure .exhausted => true
  | _ => false

def isRetryExhaustedFailure : GenResult → Bool
  | .failure .retryExhausted => true
  | _ => false

/-- The result value is a non-empty string returned as success. -/
def successNonEmptyString : GenResult → Bool
  | .success (.jstr s) => !s.isEmpty
  | _ => false

def isHttpErrorFailure : GenResult → Bool
  | .failure (.httpError _) => true
  | _ => false

/-- A transport outcome that is an HTTP response with a retryable status. -/
def isRetryableOutcome : AttemptOutcome → Bool
  | .httpResponse s _ => retryableStatus s
  | .netError => false

/-- The extracted value exists and is falsy (`if text:` fails). -/
def extractsFalsy (v : JVal) : Bool :=
  match extract_text v with
  | .ok w => !jtruthy w
  | .error _ => false

/-- An attempt outcome that raises no exception and yields falsy extracted
text, so the loop silently advances to its next iteration. -/
def yieldsFalsyText : AttemptOutcome → Bool
  | .httpResponse s (.json v _) => !raisesForStatus s && extractsFalsy v
  | _ => false

/-- The body makes line 61-63 raise one of the exceptions caught at
line 83 (`json.JSONDecodeError`, `IndexError`, `KeyError`). -/
def parseFails : BodyContent → Bool
  | .invalidJson _ => true
  | .json v _ =>
    match extract_text v with
    | .error .indexError => true
    | .error .keyError => true
    | _ => false

/-- `response.text` of a response body. -/
def rawOf : BodyContent → String
  | .invalidJson raw => raw
  | .json _ raw => raw

/-- When every transport outcome is an HTTP response with a retryable
status, the loop sleeps `baseDelay * 2 ^ i` after each non-final attempt
and ends in the `FATAL HTTP Error` branch with the retryable status on the
final attempt. -/
theorem runAttempts_all_retryable (N b : Nat) (t : Nat → AttemptOutcome)
    (ht : ∀ i, isRetryableOutcome (t i) = true) :
    ∀ rem attempt calls sleeps, attempt + rem = N → 1 ≤ rem →
      runAttempts N b t attempt rem calls sleeps =
        ⟨.failure .retryExhausted, calls + rem,
          sleeps ++ (List.range' attempt (rem - 1)).map (fun i => b * 2 ^ i)⟩ := by
  intro rem
  induction rem with
  | zero => intro _ _ _ _ h; omega
  | succ r ih =>
    intro attempt calls sleeps hsum _
    have hA := ht attempt
    cases htA : t attempt with
    | netError => rw [htA] at hA; simp [isRetryableOutcome] at hA
    | httpResponse s body =>
      rw [htA] at hA
      have hs : retryableStatus s = true := hA
      have hraise : raisesForStatus s = true := by
        simp [retryableStatus] at hs
        simp only [raisesForStatus, Bool.and_eq_true, decide_eq_true_eq]
        omega
      rcases Nat.eq_zero_or_pos r with hr | hr
      · subst hr
        have hlt : ¬ (attempt < N - 1) := by omega
        simp [runAttempts, htA, hraise, hs, hlt]
      · obtain ⟨r', rfl⟩ : ∃ r', r = r' + 1 := ⟨r - 1, by omega⟩
        have hlt : attempt < N - 1 := by omega
        rw [show runAttempts N b t attempt (r' + 1 + 1) calls sleeps =
              runAttempts N b t (attempt + 1) (r' + 1) (calls + 1)
                (sleeps ++ [b * 2 ^ attempt]) by
              simp [runAttempts, htA, hraise, hs, hlt]]
        rw [ih (attempt + 1) (calls + 1) (sleeps ++ [b * 2 ^ attempt]) (by omega) (by omega)]
        have hrange : List.range' attempt (r' + 1) =
            attempt :: List.range' (attempt + 1) r' := List.range'_succ attempt r' 1
        simp [hrange]
        omega

/-- When every transport outcome is a success response whose extracted
text is falsy, every iteration falls through `if text:` without sleeping
and the loop completes, printing the final failure message. -/
theorem runAttempts_all_falsy (N b : Nat) (t : Nat → AttemptOutcome)
    (ht : ∀ i, yieldsFalsyText (t i) = true) :
    ∀ rem attempt calls sleeps,
      runAttempts N b t attempt rem calls sleeps =
        ⟨.failure .exhausted, calls + rem, sleeps⟩ := by
  intro rem
  induction rem with
  | zero => intro attempt calls sleeps; simp [runAttempts]
  | succ r ih =>
    intro attempt calls sleeps
    have hA := ht attempt
    cases htA : t attempt with
    | netError => rw [htA] at hA; simp [yieldsFalsyText] at hA
    | httpResponse s body =>
      rw [htA] at hA
      cases body with
      | invalidJson raw => simp [yieldsFalsyText] at hA
      | json v raw =>
        simp [yieldsFalsyText] at hA
        obtain ⟨hraise, hfalsy⟩ := hA
        cases hE : extract_text v with
        | error e => rw [extractsFalsy, hE] at hfalsy; simp at hfalsy
        | ok w =>
          rw [extractsFalsy, hE] at hfalsy
          simp at hfalsy
          rw [show runAttempts N b t attempt (r + 1) calls sleeps =
                runAttempts N b t (attempt + 1) r (calls + 1) sleeps by
                simp [runAttempts, htA, hraise, hE, hfalsy]]
          rw [ih (attempt + 1) (calls + 1) sleeps]
          simp
          omega

/-! Concrete transports used to instantiate the theorems. -/

/-- Every attempt is rate-limited. -/
def t429 : Nat → AttemptOutcome :=
  fun _ => .httpResponse 429 (.json .jnull "ratelimited")

/-- Every attempt gets a 404. -/
def t404 : Nat → AttemptOutcome :=
  fun _ => .httpResponse 404 (.json .jnull "notfound")

/-- The well-formed body of the spec example. -/
def helloBody : JVal :=
  .jobj [("candidates", .jarr [.jobj [("content",
    .jobj [("parts", .jarr [.jobj [("text", .jstr "HELLO")]])])]])]

def helloTransport : Nat → AttemptOutcome :=
  fun _ => .httpResponse 200 (.json helloBody "okbody")

/-- Well-formed body whose `text` field is the empty string. -/
def emptyTextBody : JVal :=
  .jobj [("candidates", .jarr [.jobj [("content",
    .jobj [("parts", .jarr [.jobj [("text", .jstr "")]])])]])]

def emptyTextTransport : Nat → AttemptOutcome :=
  fun _ => .httpResponse 200 (.json emptyTextBody "emptybody")

/-- Well-formed body whose `text` field is the number 5 (truthy but not a
string). -/
def numTextBody : JVal :=
  .jobj [("candidates", .jarr [.jobj [("content",
    .jobj [("parts", .jarr [.jobj [("text", .jnum 5)]])])]])]

def numTextTransport : Nat → AttemptOutcome :=
  fun _ => .httpResponse 200 (.json numTextBody "numbody")

/-- Body lacking the top-level `candidates` key entirely. -/
def noCandidatesTransport : Nat → AttemptOutcome :=
  fun _ => .httpResponse 200 (.json (.jobj []) "nocandsbody")

/-- Body whose `candidates` key is present but maps to an empty list. -/
def emptyCandidatesBody : JVal := .jobj [("candidates", .jarr [])]

def emptyCandidatesTransport : Nat → AttemptOutcome :=
  fun _ => .httpResponse 200 (.json emptyCandidatesBody "emptycandsbody")

/-- Every attempt fails at the network level. -/
def netErrorTransport : Nat → AttemptOutcome :=
  fun _ => .netError

/-! Single-step facts about the loop body, shared by several theorems. -/

/-- An attempt that fails at the network level ends the call at once:
no retry, no sleep. -/
theorem runAttempts_net_step (N b attempt rem calls : Nat) (sleeps : List Nat)
    (t : Nat → AttemptOutcome) (h0 : t attempt = .netError) :
    runAttempts N b t attempt (rem + 1) calls sleeps =
      ⟨.failure .networkError, calls + 1, sleeps⟩ := by
  simp [runAttempts, h0]

/-- An attempt with a non-retryable error status ends the call at once. -/
theorem runAttempts_nonretryable_step (N b attempt rem calls : Nat) (sleeps : List Nat)
    (t : Nat → AttemptOutcome) (s : Nat) (body : BodyContent)
    (h0 : t attempt = .httpResponse s body)
    (hraise : raisesForStatus s = true)
    (hnr : retryableStatus s = false) :
    runAttempts N b t attempt (rem + 1) calls sleeps =
      ⟨.failure (.httpError s), calls + 1, sleeps⟩ := by
  simp [runAttempts, h0, hraise, hnr]

/-- An attempt whose body raises one of the parse exceptions caught at
line 83 ends the call at once with the `Failed to parse API response`
path, attaching the raw body when non-empty. -/
theorem runAttempts_parse_failure_step (N b attempt rem calls : Nat) (sleeps : List Nat)
    (t : Nat → AttemptOutcome) (s : Nat) (body : BodyContent)
    (h0 : t attempt = .httpResponse s body)
    (hs : raisesForStatus s = false)
    (hp : parseFails body = true) :
    runAttempts N b t attempt (rem + 1) calls sleeps =
      ⟨.failure (.malformed (rawAttached (rawOf body))), calls + 1, sleeps⟩ := by
  cases body with
  | invalidJson raw => simp [runAttempts, h0, hs, rawOf]
  | json v raw =>
    cases hE : extract_text v with
    | ok w => rw [parseFails] at hp; rw [hE] at hp; simp at hp
    | error e =>
      cases e with
      | indexError => simp [runAttempts, h0, hs, hE, rawOf]
      | keyError => simp [runAttempts, h0, hs, hE, rawOf]
      | typeError => rw [parseFails] at hp; rw [hE] at hp; simp at hp
      | attributeError => rw [parseFails] at hp; rw [hE] at hp; simp at hp

/-- An attempt with a success status whose extracted text is truthy
returns that text. -/
theorem runAttempts_truthy_step (N b attempt rem calls : Nat) (sleeps : List Nat)
    (t : Nat → AttemptOutcome) (s : Nat) (v : JVal) (raw : String) (w : JVal)
    (h0 : t attempt = .httpResponse s (.json v raw))
    (hs : raisesForStatus s = false)
    (hE : extract_text v = .ok w)
    (hw : jtruthy w = true) :
    runAttempts N b t attempt (rem + 1) calls sleeps =
      ⟨.success w, calls + 1, sleeps⟩ := by
  simp [runAttempts, h0, hs, hE, hw]

/-- With a truthy credential, `generate_content` is the loop started at
attempt 0 with no observables accumulated. -/
theorem generate_content_unfold (q : String) (k : Option String)
    (t : Nat → AttemptOutcome) (hk : credentialTruthy k = true) :
    generate_content q k t = runAttempts MAX_RETRIES BASE_DELAY t 0 MAX_RETRIES 0 [] := by
  simp [generate_content, generate_general, hk]

/-! The claims. -/

/-- C1: for every transport whose every attempt returns a retryable status
(429, 500 or 503) and for `maxAttempts = N ≥ 1`, the client makes exactly
N HTTP calls, sleeps `baseDelay * 2 ^ i` for i = 0 .. N-2 between
consecutive attempts, and returns the retry-exhaustion failure. -/
theorem C1_retry_exhaustion (N b : Nat) (k : Option String)
    (t : Nat → AttemptOutcome)
    (hk : credentialTruthy k = true) (hN : 1 ≤ N)
    (ht : ∀ i, isRetryableOutcome (t i) = true) :
    generate_general N b k t =
      ⟨.failure .retryExhausted, N, (List.range (N - 1)).map (fun i => b * 2 ^ i)⟩ := by
  rw [show generate_general N b k t = runAttempts N b t 0 N 0 [] by
        simp [generate_general, hk]]
  rw [runAttempts_all_retryable N b t ht N 0 0 [] (by omega) hN]
  simp [List.range_eq_range']

theorem C1_retry_exhaustion_witness :
    generate_general 5 1 (some "k") t429 =
      ⟨.failure .retryExhausted, 5, (List.range 4).map (fun i => 1 * 2 ^ i)⟩ :=
  C1_retry_exhaustion 5 1 (some "k") t429 rfl (by omega) (fun _ => rfl)

/-- C2 counterexample: a body that is valid JSON but lacks the top-level
`candidates` key does NOT produce the parse-failure path with the raw body
attached; the `.get` defaults absorb it, the loop retries, and the call
ends in the generic exhaustion failure after all five attempts. -/
theorem C2_missing_candidates_counterexample :
    isMalformedFailure (generate_content "q" (some "k") noCandidatesTransport).result = false ∧
    isExhaustedFailure (generate_content "q" (some "k") noCandidatesTransport).result = true ∧
    (generate_content "q" (some "k") noCandidatesTransport).calls = 5 := by
  decide

/-- C2 amended: when an attempt returns a success status whose body is
malformed JSON, or valid JSON whose extraction raises `IndexError` or
`KeyError`, `generate_content` returns the parse failure carrying the raw
response body when it is non-empty, after that single attempt and with no
exception escaping; a body merely lacking the `candidates` key is instead
absorbed by the lookup defaults and does not take this path. -/
theorem C2_parse_failure_malformed (q : String) (k : Option String)
    (t : Nat → AttemptOutcome) (s : Nat) (body : BodyContent)
    (hk : credentialTruthy k = true)
    (h0 : t 0 = .httpResponse s body)
    (hs : raisesForStatus s = false)
    (hp : parseFails body = true) :
    generate_content q k t =
      ⟨.failure (.malformed (rawAttached (rawOf body))), 1, []⟩ := by
  rw [generate_content_unfold q k t hk]
  exact runAttempts_parse_failure_step MAX_RETRIES BASE_DELAY 0 (MAX_RETRIES - 1) 0 []
    t s body h0 hs hp

theorem C2_parse_failure_malformed_witness :
    generate_content "q" (some "k") emptyCandidatesTransport =
      ⟨.failure (.malformed (rawAttached (rawOf (.json emptyCandidatesBody "emptycandsbody")))),
        1, []⟩ :=
  C2_parse_failure_malformed "q" (some "k") emptyCandidatesTransport 200
    (.json emptyCandidatesBody "emptycandsbody") rfl rfl rfl rfl

/-- C3: for every HTTP error status outside the retryable set, the call
fails after exactly one HTTP attempt, with no sleep. -/
theorem C3_nonretryable_single_attempt (q : String) (k : Option String)
    (t : Nat → AttemptOutcome) (s : Nat) (body : BodyContent)
    (hk : credentialTruthy k = true)
    (h0 : t 0 = .httpResponse s body)
    (hraise : raisesForStatus s = true)
    (hnr : retryableStatus s = false) :
    generate_content q k t = ⟨.failure (.httpError s), 1, []⟩ := by
  rw [generate_content_unfold q k t hk]
  exact runAttempts_nonretryable_step MAX_RETRIES BASE_DELAY 0 (MAX_RETRIES - 1) 0 []
    t s body h0 hraise hnr

theorem C3_nonretryable_single_attempt_witness :
    generate_content "q" (some "k") t404 = ⟨.failure (.httpError 404), 1, []⟩ :=
  C3_nonretryable_single_attempt "q" (some "k") t404 404 (.json .jnull "notfound")
    rfl rfl rfl rfl

/-- C4: with no truthy credential in the environment, the call fails at
once with the missing-credential path and makes zero HTTP calls. -/
theorem C4_missing_credential (q : String) (k : Option String)
    (t : Nat → AttemptOutcome)
    (hk : credentialTruthy k = false) :
    generate_content q k t = ⟨.failure .missingCredential, 0, []⟩ := by
  simp [generate_content, generate_general, hk]

theorem C4_missing_credential_witness :
    generate_content "q" none t429 = ⟨.failure .missingCredential, 0, []⟩ :=
  C4_missing_credential "q" none t429 rfl

/-- C5 counterexample: a body whose `text` field is the number 5 makes the
call succeed even though extraction did not yield a non-empty string: the
source tests `if text:` for truthiness, not for being a non-empty string,
and returns the raw value. -/
theorem C5_nonstring_success_counterexample :
    isSuccess (generate_content "q" (some "k") numTextTransport).result = true ∧
    successNonEmptyString (generate_content "q" (some "k") numTextTransport).result = false ∧
    (generate_content "q" (some "k") numTextTransport).result = .success (.jnum 5) :=
  ⟨by decide, by decide, rfl⟩

/-- C5 amended: when every attempt yields the same success response whose
extraction succeeds with value `w`, the call returns `w` exactly when `w`
is truthy (in particular exactly when a string `w` is non-empty, so the
HELLO body yields success HELLO); a falsy `w` — the empty string included —
is never returned and the call falls through to the exhaustion failure. -/
theorem C5_success_iff_truthy (q : String) (k : Option String)
    (t : Nat → AttemptOutcome) (s : Nat) (body : JVal) (raw : String) (w : JVal)
    (hk : credentialTruthy k = true)
    (ht : ∀ i, t i = .httpResponse s (.json body raw))
    (hs : raisesForStatus s = false)
    (hE : extract_text body = .ok w) :
    ((generate_content q k t).result = .success w ↔ jtruthy w = true) ∧
    (jtruthy w = false →
      generate_content q k t = ⟨.failure .exhausted, MAX_RETRIES, []⟩) := by
  cases hjw : jtruthy w with
  | true =>
    have hsucc : generate_content q k t = ⟨.success w, 1, []⟩ := by
      rw [generate_content_unfold q k t hk]
      exact runAttempts_truthy_step MAX_RETRIES BASE_DELAY 0 (MAX_RETRIES - 1) 0 []
        t s body raw w (ht 0) hs hE hjw
    refine ⟨⟨fun _ => rfl, fun _ => by rw [hsucc]⟩, fun hfalse => by cases hfalse⟩
  | false =>
    have hexh : generate_content q k t = ⟨.failure .exhausted, MAX_RETRIES, []⟩ := by
      rw [generate_content_unfold q k t hk]
      have hfalsy : ∀ i, yieldsFalsyText (t i) = true := by
        intro i
        rw [ht i]
        simp [yieldsFalsyText, hs, extractsFalsy, hE, hjw]
      have := runAttempts_all_falsy MAX_RETRIES BASE_DELAY t hfalsy MAX_RETRIES 0 0 []
      simpa using this
    refine ⟨⟨fun hres => ?_, fun htr => by cases htr⟩, fun _ => hexh⟩
    rw [hexh] at hres
    simp at hres

theorem C5_success_iff_truthy_witness :
    ((generate_content "q" (some "k") helloTransport).result = .success (.jstr "HELLO") ↔
      jtruthy (.jstr "HELLO") = true) ∧
    (jtruthy (.jstr "HELLO") = false →
      generate_content "q" (some "k") helloTransport =
        ⟨.failure .exhausted, MAX_RETRIES, []⟩) :=
  C5_success_iff_truthy "q" (some "k") helloTransport 200 helloBody "okbody"
    (.jstr "HELLO") rfl (fun _ => rfl) rfl rfl

/-- C6 counterexample: under the default policy with every attempt hitting
a retryable status, the sleep sequence performed is 1s, 2s, 4s, 8s — four
delays, not the five delays 1s, 2s, 4s, 8s, 16s the claim states: the
final attempt fails the `attempt < MAX_RETRIES - 1` test and breaks
without sleeping. -/
theorem C6_sleep_sequence_counterexample :
    (generate_content "q" (some "k") t429).sleeps = [1, 2, 4, 8] ∧
    ([1, 2, 4, 8] : List Nat) ≠ [1, 2, 4, 8, 16] := by
  decide

/-- C6 amended: under the default retry policy (maxAttempts = 5,
baseDelay = 1 second), when every attempt fails with a retryable status
the sequence of sleep delays performed before giving up is 1s, 2s, 4s,
8s. -/
theorem C6_default_sleep_sequence (q : String) (k : Option String)
    (t : Nat → AttemptOutcome)
    (hk : credentialTruthy k = true)
    (ht : ∀ i, isRetryableOutcome (t i) = true) :
    (generate_content q k t).sleeps = [1, 2, 4, 8] := by
  rw [generate_content_unfold q k t hk]
  rw [runAttempts_all_retryable MAX_RETRIES BASE_DELAY t ht MAX_RETRIES 0 0 []
    (by omega) (by decide)]
  rfl

theorem C6_default_sleep_sequence_witness :
    (generate_content "q" (some "k") t429).sleeps = [1, 2, 4, 8] :=
  C6_default_sleep_sequence "q" (some "k") t429 rfl (fun _ => rfl)

/-- C7: a network-level error on an attempt is not retried: the call ends
at once with the network-error failure, no sleep is added, and the result
is not an HTTP-status failure. -/
theorem C7_network_error_immediate (q : String) (k : Option String)
    (t : Nat → AttemptOutcome)
    (hk : credentialTruthy k = true)
    (h0 : t 0 = .netError) :
    generate_content q k t = ⟨.failure .networkError, 1, []⟩ ∧
    isHttpErrorFailure (generate_content q k t).result = false := by
  have hres : generate_content q k t = ⟨.failure .networkError, 1, []⟩ := by
    rw [generate_content_unfold q k t hk]
    exact runAttempts_net_step MAX_RETRIES BASE_DELAY 0 (MAX_RETRIES - 1) 0 [] t h0
  exact ⟨hres, by rw [hres]; rfl⟩

theorem C7_network_error_immediate_witness :
    generate_content "q" (some "k") netErrorTransport =
      ⟨.failure .networkError, 1, []⟩ ∧
    isHttpErrorFailure (generate_content "q" (some "k") netErrorTransport).result = false :=
  C7_network_error_immediate "q" (some "k") netErrorTransport rfl rfl

/-- C8: two invocations with the same query, the same credential and the
same transport behaviour produce the same observable outcome: the
function threads no state between calls. -/
theorem C8_no_hidden_state (q : String) (k : Option String)
    (t : Nat → AttemptOutcome) :
    (generate_twice q k t t).1 = (generate_twice q k t t).2 ∧
    generate_twice q k t t = (generate_content q k t, generate_content q k t) :=
  ⟨rfl, rfl⟩

/-- C9 counterexample: when every attempt returns a success status whose
extracted text is the empty string, the call makes all five HTTP attempts,
not one: the falsy text falls through `if text:` and the loop posts
again. -/
theorem C9_empty_text_retries_counterexample :
    (generate_content "q" (some "k") emptyTextTransport).calls = 5 ∧
    (5 : Nat) ≠ 1 := by
  decide

/-- C9 amended: an attempt whose HTTP call succeeds but whose extracted
text is falsy (the empty string included) does not end the call; the loop
immediately proceeds to further attempts without sleeping, and once all
`MAX_RETRIES` attempts have done so the call ends in the exhaustion
failure, never returning the empty answer. -/
theorem C9_empty_text_exhausts_attempts (q : String) (k : Option String)
    (t : Nat → AttemptOutcome)
    (hk : credentialTruthy k = true)
    (ht : ∀ i, yieldsFalsyText (t i) = true) :
    generate_content q k t = ⟨.failure .exhausted, MAX_RETRIES, []⟩ := by
  rw [generate_content_unfold q k t hk]
  have := runAttempts_all_falsy MAX_RETRIES BASE_DELAY t ht MAX_RETRIES 0 0 []
  simpa using this

theorem C9_empty_text_exhausts_attempts_witness :
    generate_content "q" (some "k") emptyTextTransport =
      ⟨.failure .exhausted, MAX_RETRIES, []⟩ :=
  C9_empty_text_exhausts_attempts "q" (some "k") emptyTextTransport rfl (fun _ => rfl)

/-- C10: a success response whose `candidates` key holds an empty list
makes the first-candidate indexing raise `IndexError`, which is caught:
the call returns the parse failure carrying the raw body after that one
attempt, with no further network call and no escaping exception — whereas
a body with `candidates` absent entirely is absorbed by the lookup
defaults and extraction completes without an exception. -/
theorem C10_empty_candidates_indexerror (q : String) (k : Option String)
    (t : Nat → AttemptOutcome) (s : Nat) (raw : String)
    (hk : credentialTruthy k = true)
    (h0 : t 0 = .httpResponse s (.json emptyCandidatesBody raw))
    (hs : raisesForStatus s = false)
    (hraw : raw ≠ "") :
    extract_text emptyCandidatesBody = .error .indexError ∧
    generate_content q k t = ⟨.failure (.malformed (some raw)), 1, []⟩ ∧
    extract_text (.jobj []) = .ok .jnull := by
  refine ⟨rfl, ?_, rfl⟩
  rw [generate_content_unfold q k t hk]
  have hstep := runAttempts_parse_failure_step MAX_RETRIES BASE_DELAY 0 (MAX_RETRIES - 1)
    0 [] t s (.json emptyCandidatesBody raw) h0 hs rfl
  show runAttempts MAX_RETRIES BASE_DELAY t 0 (MAX_RETRIES - 1 + 1) 0 [] = _
  rw [hstep]
  simp [rawOf, rawAttached, hraw]

theorem C10_empty_candidates_indexerror_witness :
    extract_text emptyCandidatesBody = .error .indexError ∧
    generate_content "q" (some "k") emptyCandidatesTransport =
      ⟨.failure (.malformed (some "emptycandsbody")), 1, []⟩ ∧
    extract_text (.jobj []) = .ok .jnull :=
  C10_empty_candidates_indexerror "q" (some "k") emptyCandidatesTransport 200
    "emptycandsbody" rfl rfl rfl (by decide)
